import Mathlib

/-!
# Verification of the cv-box route-estimation and location-acquisition core

Shallow embedding of the algorithmic core of `src/App.js`:

* `calculateDistance` (App.js 334-344): haversine great-circle distance;
* `calculateRouteDistance` (App.js 325-331): sum of consecutive-pair distances;
* `generateSimulatedRoute` (App.js 301-322): synthetic waypoint interpolation;
* `createRoute` (App.js 214-282, inside `SimpleRouting`): the route
  estimation operation the specification calls `estimate`;
* `acquireInitial` (App.js 108-159, inside `LocationController`): the
  two-stage geolocation acquisition;
* the watch / cleanup lifecycle of `LocationController` (App.js 67-191).

JavaScript numbers are modelled as real numbers; `Math.sin`, `Math.cos`,
`Math.sqrt`, `Math.atan2` as their exact real counterparts, and
`Math.round` as `round : ℝ → ℤ` (both round halves toward positive
infinity).
-/

namespace CvBox

/-- A `[latitude, longitude]` pair in degrees, as the two-element arrays the
source passes around (index `0` = latitude, index `1` = longitude). -/
abbrev Coordinate := ℝ × ℝ

/-- `Math.atan2 y x`: the angle of the point `(x, y)`, i.e. the argument of
the complex number `x + y·i`. -/
noncomputable def atan2 (y x : ℝ) : ℝ := Complex.arg ⟨x, y⟩

/-- `calculateDistance` (App.js 334-344): haversine distance in kilometres
between two `[lat, lng]` points, Earth radius `R = 6371` km. -/
noncomputable def calculateDistance (pos1 pos2 : Coordinate) : ℝ :=
  let R : ℝ := 6371
  let dLat := (pos2.1 - pos1.1) * Real.pi / 180
  let dLon := (pos2.2 - pos1.2) * Real.pi / 180
  let a := Real.sin (dLat / 2) * Real.sin (dLat / 2) +
    Real.cos (pos1.1 * Real.pi / 180) * Real.cos (pos2.1 * Real.pi / 180) *
      (Real.sin (dLon / 2) * Real.sin (dLon / 2))
  let c := 2 * atan2 (Real.sqrt a) (Real.sqrt (1 - a))
  R * c

/-- The intermediate `a` of `calculateDistance` (proof-side abbreviation for
the expression bound to `a` at App.js 338-341). -/
noncomputable def hav_a (pos1 pos2 : Coordinate) : ℝ :=
  Real.sin ((pos2.1 - pos1.1) * Real.pi / 180 / 2) *
      Real.sin ((pos2.1 - pos1.1) * Real.pi / 180 / 2) +
    Real.cos (pos1.1 * Real.pi / 180) * Real.cos (pos2.1 * Real.pi / 180) *
      (Real.sin ((pos2.2 - pos1.2) * Real.pi / 180 / 2) *
        Real.sin ((pos2.2 - pos1.2) * Real.pi / 180 / 2))

theorem calculateDistance_def (pos1 pos2 : Coordinate) :
    calculateDistance pos1 pos2 =
      6371 * (2 * atan2 (Real.sqrt (hav_a pos1 pos2))
        (Real.sqrt (1 - hav_a pos1 pos2))) := rfl

/-- `calculateRouteDistance` (App.js 325-331): the loop
`for (i = 1; i < coordinates.length; i++) total += dist(c[i-1], c[i])`
as structural recursion over consecutive pairs. -/
noncomputable def calculateRouteDistance : List Coordinate → ℝ
  | c1 :: c2 :: rest => calculateDistance c1 c2 + calculateRouteDistance (c2 :: rest)
  | _ => 0

/-- `generateSimulatedRoute` (App.js 301-322).  `endp` is the parameter the
source calls `end` (a reserved word in Lean).  The loop
`for (i = 1; i < segments; i++)` is rendered as a map over
`List.range' 1 (segments - 1) = [1, 2, 3, 4]`. -/
noncomputable def generateSimulatedRoute (start endp : Coordinate) : List Coordinate :=
  let latDiff := endp.1 - start.1
  let lngDiff := endp.2 - start.2
  let segments : ℕ := 5
  let interior := (List.range' 1 (segments - 1)).map fun (i : ℕ) =>
    let factor : ℝ := (i : ℝ) / (segments : ℝ)
    let variation := 0.001 * Real.sin (factor * Real.pi * 4)
    ((start.1 + latDiff * factor + variation,
      start.2 + lngDiff * factor + variation * 0.5) : Coordinate)
  start :: (interior ++ [endp])

/-- The `type` tag of a route result: the source emits the string
`'simulated-route'` in the try branch (App.js 246; the specification names
this strategy `approximated-path`) and `'straight-line'` in the fallback
branch (App.js 273). -/
inductive RouteKind where
  | simulatedRoute
  | straightLine
deriving DecidableEq

/-- The string literal the source stores in the `type` field. -/
def RouteKind.tag : RouteKind → String
  | .simulatedRoute => "simulated-route"
  | .straightLine => "straight-line"

/-- The route descriptor assembled by `createRoute`: the polyline drawn on
the map (`coordinates`), the raw distance in km, the rounded time in
minutes, and the strategy tag.  The source additionally formats the
distance as a one-decimal display string (`distance.toFixed(1)`, App.js
244/271) before handing it to `onRouteInfo`; the model carries the
underlying number it formats. -/
structure RouteResult where
  coordinates : List Coordinate
  distance : ℝ
  time : ℤ
  type : RouteKind

/-- The descriptor assembled in `createRoute`'s `try` block
(App.js 223-249): the simulated polyline, its summed distance, and
`Math.round((distance / 30) * 60)` minutes. -/
noncomputable def simulatedRouteResult (userPosition destination : Coordinate) :
    RouteResult :=
  let routeCoordinates := generateSimulatedRoute userPosition destination
  let distance := calculateRouteDistance routeCoordinates
  let estimatedTime := round (distance / 30 * 60)
  { coordinates := routeCoordinates, distance := distance,
    time := estimatedTime, type := .simulatedRoute }

/-- The descriptor assembled in the `catch` block's nested `try`
(App.js 255-275): the straight polyline `[userPosition, destination]`, a
single haversine distance, and `Math.round((distance / 50) * 60)` minutes. -/
noncomputable def straightLineResult (userPosition destination : Coordinate) :
    RouteResult :=
  let distance := calculateDistance userPosition destination
  let estimatedTime := round (distance / 50 * 60)
  { coordinates := [userPosition, destination], distance := distance,
    time := estimatedTime, type := .straightLine }

/-- `createRoute` (App.js 214-282), the operation the specification calls
`estimate`.  The route mathematics itself is pure and cannot throw; the
throwing operations are the Leaflet rendering calls (`L.polyline`,
`addTo`, `fitBounds`), abstracted by `renderOk` for the `try` block and
`fallbackRenderOk` for the `catch` block's nested `try` (App.js 255-278).
The source has three outcomes: the simulated result when the first
rendering succeeds; the straight-line result when it throws but the
fallback rendering succeeds; and — when the fallback rendering also
throws — NO delivered result at all: the nested `catch` only logs
(App.js 276-278), `onRouteInfo` is never invoked, and no exception
propagates to the caller. -/
noncomputable def createRoute (userPosition destination : Coordinate)
    (renderOk fallbackRenderOk : Bool) : Option RouteResult :=
  if renderOk then some (simulatedRouteResult userPosition destination)
  else if fallbackRenderOk then some (straightLineResult userPosition destination)
  else none

/-! ## Basic facts about the haversine distance -/

theorem atan2_zero_one : atan2 0 1 = 0 := by
  unfold atan2
  exact Complex.arg_eq_zero_iff.mpr ⟨by norm_num, rfl⟩

theorem atan2_nonneg (y x : ℝ) (hy : 0 ≤ y) : 0 ≤ atan2 y x := by
  unfold atan2
  exact Complex.arg_nonneg_iff.mpr hy

theorem atan2_pos (y x : ℝ) (hy : 0 < y) : 0 < atan2 y x := by
  rcases lt_or_eq_of_le (atan2_nonneg y x hy.le) with h | h
  · exact h
  · exact absurd (Complex.arg_eq_zero_iff.mp h.symm).2 hy.ne'

theorem hav_a_self (p : Coordinate) : hav_a p p = 0 := by
  unfold hav_a
  simp

theorem hav_a_symm (p q : Coordinate) : hav_a p q = hav_a q p := by
  unfold hav_a
  rw [show (p.1 - q.1) * Real.pi / 180 / 2 =
        -((q.1 - p.1) * Real.pi / 180 / 2) by ring,
      show (p.2 - q.2) * Real.pi / 180 / 2 =
        -((q.2 - p.2) * Real.pi / 180 / 2) by ring,
      Real.sin_neg, Real.sin_neg]
  ring

theorem calculateDistance_self (p : Coordinate) : calculateDistance p p = 0 := by
  rw [calculateDistance_def, hav_a_self]
  simp [atan2_zero_one]

theorem calculateDistance_symm (p q : Coordinate) :
    calculateDistance p q = calculateDistance q p := by
  rw [calculateDistance_def, calculateDistance_def, hav_a_symm]

theorem calculateDistance_nonneg (p q : Coordinate) :
    0 ≤ calculateDistance p q := by
  rw [calculateDistance_def]
  have h := atan2_nonneg (Real.sqrt (hav_a p q)) (Real.sqrt (1 - hav_a p q))
    (Real.sqrt_nonneg _)
  positivity

theorem calculateRouteDistance_nonneg (l : List Coordinate) :
    0 ≤ calculateRouteDistance l := by
  induction l with
  | nil => simp [calculateRouteDistance]
  | cons c rest ih =>
    cases rest with
    | nil => simp [calculateRouteDistance]
    | cons c2 rest2 =>
      have h := calculateDistance_nonneg c c2
      have h2 : (0:ℝ) ≤ calculateRouteDistance (c2 :: rest2) := ih
      calc (0:ℝ) ≤ calculateDistance c c2 + calculateRouteDistance (c2 :: rest2) := by
            linarith
        _ = calculateRouteDistance (c :: c2 :: rest2) := rfl

/-! ## Spec-side formulations (for the self-consistency claims) -/

/-- Degree-to-radian conversion, as §4.2 of the specification requires. -/
noncomputable def toRadians (deg : ℝ) : ℝ := deg * Real.pi / 180

/-- The `a` of the haversine formula exactly as the specification writes it:
`a = sin²(Δlat/2) + cos(lat1)·cos(lat2)·sin²(Δlon/2)`. -/
noncomputable def haversineSpecA (p1 p2 : Coordinate) : ℝ :=
  Real.sin (toRadians (p2.1 - p1.1) / 2) ^ 2 +
    Real.cos (toRadians p1.1) * Real.cos (toRadians p2.1) *
      Real.sin (toRadians (p2.2 - p1.2) / 2) ^ 2

/-- The haversine distance exactly as the specification writes it
(spec-side definition, to be compared with `calculateDistance`):
`c = 2·atan2(√a, √(1−a))`, `distance = R·c` with `R = 6371` km. -/
noncomputable def haversineSpec (p1 p2 : Coordinate) : ℝ :=
  6371 * (2 * atan2 (Real.sqrt (haversineSpecA p1 p2))
    (Real.sqrt (1 - haversineSpecA p1 p2)))

theorem haversineSpec_eq (p q : Coordinate) :
    haversineSpec p q = calculateDistance p q := by
  rw [calculateDistance_def]
  unfold haversineSpec
  rw [show haversineSpecA p q = hav_a p q by unfold haversineSpecA toRadians hav_a; ring]

/-- Spec-side: the sum of haversine distances between consecutive waypoints
of a path (§8's self-consistency property). -/
noncomputable def pathHaversineSum (path : List Coordinate) : ℝ :=
  ((path.zip path.tail).map fun pq => haversineSpec pq.1 pq.2).sum

theorem calculateRouteDistance_eq_pathHaversineSum (l : List Coordinate) :
    calculateRouteDistance l = pathHaversineSum l := by
  induction l with
  | nil => simp [calculateRouteDistance, pathHaversineSum]
  | cons c rest ih =>
    cases rest with
    | nil => simp [calculateRouteDistance, pathHaversineSum]
    | cons c2 rest2 =>
      show calculateDistance c c2 + calculateRouteDistance (c2 :: rest2) = _
      rw [ih]
      show _ = ((((c :: c2 :: rest2).zip (c2 :: rest2)).map
        fun pq => haversineSpec pq.1 pq.2).sum)
      rw [List.zip_cons_cons, List.map_cons, List.sum_cons, haversineSpec_eq]
      rfl

/-- The interior waypoint of `generateSimulatedRoute` for loop index `i`. -/
noncomputable def wp (s e : Coordinate) (i : ℕ) : Coordinate :=
  (s.1 + (e.1 - s.1) * ((i : ℝ) / 5) + 0.001 * Real.sin (((i : ℝ) / 5) * Real.pi * 4),
   s.2 + (e.2 - s.2) * ((i : ℝ) / 5) + 0.001 * Real.sin (((i : ℝ) / 5) * Real.pi * 4) * 0.5)

theorem generateSimulatedRoute_eq (s e : Coordinate) :
    generateSimulatedRoute s e = [s, wp s e 1, wp s e 2, wp s e 3, wp s e 4, e] := by
  simp only [generateSimulatedRoute]
  rw [show (5:ℕ) - 1 = 4 from rfl, show List.range' 1 4 = [1, 2, 3, 4] from rfl]
  simp only [List.map_cons, List.map_nil, List.cons_append, List.nil_append, wp]
  norm_num

theorem round_nonneg_of_nonneg (x : ℝ) (h : 0 ≤ x) : 0 ≤ round x := by
  rw [round_eq]
  exact Int.floor_nonneg.mpr (by linarith)

/-! ## Claim theorems (routing) -/

/-- C9: the haversine distance function returns 0 for every point paired
with itself, and is symmetric: `calculateDistance A B = calculateDistance B A`. -/
theorem claim_haversine_self_symm (A B : Coordinate) :
    calculateDistance A A = 0 ∧ calculateDistance A B = calculateDistance B A :=
  ⟨calculateDistance_self A, calculateDistance_symm A B⟩

theorem simulatedRouteResult_wellformed (o d : Coordinate) :
    (simulatedRouteResult o d).coordinates ≠ [] ∧
    0 ≤ (simulatedRouteResult o d).distance ∧
    0 ≤ (simulatedRouteResult o d).time := by
  refine ⟨?_, calculateRouteDistance_nonneg _, ?_⟩
  · show generateSimulatedRoute o d ≠ []
    rw [generateSimulatedRoute_eq]; simp
  · show 0 ≤ round (calculateRouteDistance (generateSimulatedRoute o d) / 30 * 60)
    exact round_nonneg_of_nonneg _
      (by have h := calculateRouteDistance_nonneg (generateSimulatedRoute o d); linarith)

theorem straightLineResult_wellformed (o d : Coordinate) :
    (straightLineResult o d).coordinates ≠ [] ∧
    0 ≤ (straightLineResult o d).distance ∧
    0 ≤ (straightLineResult o d).time := by
  refine ⟨by simp [straightLineResult], calculateDistance_nonneg o d, ?_⟩
  show 0 ≤ round (calculateDistance o d / 50 * 60)
  exact round_nonneg_of_nonneg _ (by have h := calculateDistance_nonneg o d; linarith)

/-- C7: for every input pair, the approximated path contains exactly
`segments + 1 = 6` waypoints — stated for the raw generator and for the
path of the result `createRoute` delivers in the simulated-route branch. -/
theorem claim_route_six_waypoints (o d : Coordinate) (fok : Bool) :
    (generateSimulatedRoute o d).length = 6 ∧
    (createRoute o d true fok).map (fun r => r.coordinates.length) = some 6 := by
  constructor
  · rw [generateSimulatedRoute_eq]; rfl
  · show some (generateSimulatedRoute o d).length = some 6
    rw [generateSimulatedRoute_eq]
    rfl

/-- C3: every RouteResult `createRoute` (the spec's `estimate`) delivers —
simulated-route or straight-line — has a path starting exactly at the
origin and ending exactly at the destination. -/
theorem claim_route_endpoints_exact (o d : Coordinate) (ok fok : Bool)
    (r : RouteResult) (h : createRoute o d ok fok = some r) :
    r.coordinates.head? = some o ∧ r.coordinates.getLast? = some d := by
  cases ok
  · cases fok
    · simp [createRoute] at h
    · simp [createRoute] at h
      subst h
      exact ⟨rfl, rfl⟩
  · simp [createRoute] at h
    subst h
    constructor
    · show (generateSimulatedRoute o d).head? = some o
      rw [generateSimulatedRoute_eq]; rfl
    · show (generateSimulatedRoute o d).getLast? = some d
      rw [generateSimulatedRoute_eq]; rfl

/-- Witness for C3: the simulated-route branch at a concrete pair. -/
theorem claim_route_endpoints_exact_witness :
    (simulatedRouteResult ((0:ℝ), (0:ℝ)) ((1:ℝ), (2:ℝ))).coordinates.head? =
      some ((0:ℝ), (0:ℝ)) ∧
    (simulatedRouteResult ((0:ℝ), (0:ℝ)) ((1:ℝ), (2:ℝ))).coordinates.getLast? =
      some ((1:ℝ), (2:ℝ)) :=
  claim_route_endpoints_exact ((0:ℝ), (0:ℝ)) ((1:ℝ), (2:ℝ)) true true
    (simulatedRouteResult ((0:ℝ), (0:ℝ)) ((1:ℝ), (2:ℝ))) rfl

/-- C2: every RouteResult `createRoute` delivers reports a distance equal
to the sum of the spec-formula haversine distances between consecutive
waypoints of its path, in both delivered branches. -/
theorem claim_distance_is_consecutive_haversine_sum (o d : Coordinate) (ok fok : Bool)
    (r : RouteResult) (h : createRoute o d ok fok = some r) :
    r.distance = pathHaversineSum r.coordinates := by
  cases ok
  · cases fok
    · simp [createRoute] at h
    · simp [createRoute] at h
      subst h
      show calculateDistance o d = pathHaversineSum [o, d]
      show _ = (([o, d].zip [d]).map fun pq => haversineSpec pq.1 pq.2).sum
      rw [List.zip_cons_cons, List.zip_nil_right, List.map_cons, List.map_nil,
        List.sum_cons, List.sum_nil, haversineSpec_eq, add_zero]
  · simp [createRoute] at h
    subst h
    exact calculateRouteDistance_eq_pathHaversineSum _

/-- Witness for C2: the straight-line branch at a concrete pair. -/
theorem claim_distance_is_consecutive_haversine_sum_witness :
    (straightLineResult ((0:ℝ), (0:ℝ)) ((1:ℝ), (1:ℝ))).distance =
      pathHaversineSum (straightLineResult ((0:ℝ), (0:ℝ)) ((1:ℝ), (1:ℝ))).coordinates :=
  claim_distance_is_consecutive_haversine_sum ((0:ℝ), (0:ℝ)) ((1:ℝ), (1:ℝ)) false true
    (straightLineResult ((0:ℝ), (0:ℝ)) ((1:ℝ), (1:ℝ))) rfl

/-- C1 counterexample: when the try block's rendering throws AND the
fallback rendering also throws, `createRoute` delivers no RouteResult at
all (the nested catch at App.js 276-278 only logs) — so the claim that a
well-formed RouteResult is always returned is false on the code. -/
theorem claim_estimate_total_counterexample :
    createRoute ((3.848:ℝ), (11.502:ℝ)) ((3.865:ℝ), (11.518:ℝ)) false false = none := rfl

/-- C1 (amended): no exception ever surfaces to the caller and every
RouteResult `createRoute` actually delivers carries a non-empty path, a
non-negative distance, a non-negative integer duration, and the kind tag
of exactly the branch that executed (`simulated-route`, the spec's
`approximated-path`, for the try branch; `straight-line` for the
fallback); the only execution delivering no result is the one in which
both renderings throw. -/
theorem claim_estimate_delivered_wellformed (o d : Coordinate) (ok fok : Bool) :
    (∀ r, createRoute o d ok fok = some r →
      r.coordinates ≠ [] ∧ 0 ≤ r.distance ∧ 0 ≤ r.time ∧
      r.type = (if ok then RouteKind.simulatedRoute else RouteKind.straightLine)) ∧
    (createRoute o d ok fok = none ↔ (ok = false ∧ fok = false)) := by
  cases ok
  · cases fok
    · refine ⟨?_, by simp [createRoute]⟩
      intro r h
      simp [createRoute] at h
    · refine ⟨?_, by simp [createRoute]⟩
      intro r h
      simp [createRoute] at h
      subst h
      obtain ⟨w1, w2, w3⟩ := straightLineResult_wellformed o d
      exact ⟨w1, w2, w3, rfl⟩
  · refine ⟨?_, by simp [createRoute]⟩
    intro r h
    simp [createRoute] at h
    subst h
    obtain ⟨w1, w2, w3⟩ := simulatedRouteResult_wellformed o d
    exact ⟨w1, w2, w3, rfl⟩

/-- Witness for C1: the simulated-route branch delivers a well-formed
result at a concrete pair (Yaoundé centre to the Réunification monument). -/
theorem claim_estimate_delivered_wellformed_witness :
    (simulatedRouteResult ((3.848:ℝ), (11.502:ℝ)) ((3.865:ℝ), (11.518:ℝ))).coordinates ≠ [] ∧
    0 ≤ (simulatedRouteResult ((3.848:ℝ), (11.502:ℝ)) ((3.865:ℝ), (11.518:ℝ))).distance ∧
    0 ≤ (simulatedRouteResult ((3.848:ℝ), (11.502:ℝ)) ((3.865:ℝ), (11.518:ℝ))).time ∧
    (simulatedRouteResult ((3.848:ℝ), (11.502:ℝ)) ((3.865:ℝ), (11.518:ℝ))).type =
      RouteKind.simulatedRoute :=
  (claim_estimate_delivered_wellformed ((3.848:ℝ), (11.502:ℝ)) ((3.865:ℝ), (11.518:ℝ))
      true true).1
    (simulatedRouteResult ((3.848:ℝ), (11.502:ℝ)) ((3.865:ℝ), (11.518:ℝ))) rfl

/-- C8: every delivered duration follows the branch formula —
`round(distance / 30 * 60)` minutes for the simulated route,
`round(distance / 50 * 60)` for the straight line — and is non-negative. -/
theorem claim_duration_formula (o d : Coordinate) (fok : Bool) (r s : RouteResult)
    (h1 : createRoute o d true fok = some r)
    (h2 : createRoute o d false true = some s) :
    r.time = round (r.distance / 30 * 60) ∧
    s.time = round (s.distance / 50 * 60) ∧
    0 ≤ r.time ∧ 0 ≤ s.time := by
  simp [createRoute] at h1 h2
  subst h1
  subst h2
  exact ⟨rfl, rfl, (simulatedRouteResult_wellformed o d).2.2,
    (straightLineResult_wellformed o d).2.2⟩

/-- Witness for C8: both branches at a concrete pair. -/
theorem claim_duration_formula_witness :
    (simulatedRouteResult ((0:ℝ), (0:ℝ)) ((1:ℝ), (1:ℝ))).time =
      round ((simulatedRouteResult ((0:ℝ), (0:ℝ)) ((1:ℝ), (1:ℝ))).distance / 30 * 60) ∧
    (straightLineResult ((0:ℝ), (0:ℝ)) ((1:ℝ), (1:ℝ))).time =
      round ((straightLineResult ((0:ℝ), (0:ℝ)) ((1:ℝ), (1:ℝ))).distance / 50 * 60) ∧
    0 ≤ (simulatedRouteResult ((0:ℝ), (0:ℝ)) ((1:ℝ), (1:ℝ))).time ∧
    0 ≤ (straightLineResult ((0:ℝ), (0:ℝ)) ((1:ℝ), (1:ℝ))).time :=
  claim_duration_formula ((0:ℝ), (0:ℝ)) ((1:ℝ), (1:ℝ)) true
    (simulatedRouteResult ((0:ℝ), (0:ℝ)) ((1:ℝ), (1:ℝ)))
    (straightLineResult ((0:ℝ), (0:ℝ)) ((1:ℝ), (1:ℝ))) rfl rfl

/-- C6: each interior waypoint `i ∈ [1, 4]` of the approximated path is the
linear interpolation of origin and destination at `factor = i / 5`, with
latitude perturbed by `0.001·sin(factor·4π)` and longitude by half that
value. -/
theorem claim_interior_waypoint_formula (s e : Coordinate) (i : ℕ)
    (h1 : 1 ≤ i) (h2 : i ≤ 4) :
    (generateSimulatedRoute s e).get? i =
      some (s.1 + (e.1 - s.1) * ((i : ℝ) / 5) +
              0.001 * Real.sin (((i : ℝ) / 5) * Real.pi * 4),
            s.2 + (e.2 - s.2) * ((i : ℝ) / 5) +
              0.001 * Real.sin (((i : ℝ) / 5) * Real.pi * 4) * 0.5) := by
  rw [generateSimulatedRoute_eq]
  interval_cases i <;> · show some _ = some _; rw [wp]

/-- Witness for C6 at `i = 2`, origin = destination = `(0, 0)`. -/
theorem claim_interior_waypoint_formula_witness :
    (1 ≤ 2 ∧ 2 ≤ 4) ∧
    (generateSimulatedRoute ((0:ℝ), (0:ℝ)) ((0:ℝ), (0:ℝ))).get? 2 =
      some ((0:ℝ) + ((0:ℝ) - 0) * (((2:ℕ) : ℝ) / 5) +
              0.001 * Real.sin ((((2:ℕ) : ℝ) / 5) * Real.pi * 4),
            (0:ℝ) + ((0:ℝ) - 0) * (((2:ℕ) : ℝ) / 5) +
              0.001 * Real.sin ((((2:ℕ) : ℝ) / 5) * Real.pi * 4) * 0.5) :=
  ⟨⟨by norm_num, by norm_num⟩,
    claim_interior_waypoint_formula (0, 0) (0, 0) 2 (by norm_num) (by norm_num)⟩

/-! ## The degenerate origin = destination case (C10) -/

theorem sin_factor_ne_zero (i : ℕ) (h1 : 1 ≤ i) (h2 : i ≤ 4) :
    Real.sin (((i : ℝ) / 5) * Real.pi * 4) ≠ 0 := by
  intro h
  rcases Real.sin_eq_zero_iff.mp h with ⟨n, hn⟩
  have h' : ((n : ℝ) - (i : ℝ) * 4 / 5) * Real.pi = 0 := by linear_combination hn
  rcases mul_eq_zero.mp h' with h0 | h0
  · have h5 : (5 : ℝ) * (n : ℝ) = 4 * (i : ℝ) := by linarith
    have hz : (5 : ℤ) * n = 4 * (i : ℤ) := by exact_mod_cast h5
    omega
  · exact Real.pi_ne_zero h0

theorem hav_a_pos_of_shift (lat lon v : ℝ) (hv : v ≠ 0) (hb : |v| ≤ 180) :
    0 < hav_a (lat, lon) (lat + v, lon + v * 0.5) := by
  have e1 : (lat + v - lat) * Real.pi / 180 / 2 = v * (Real.pi / 360) := by ring
  have e2 : (lon + v * 0.5 - lon) * Real.pi / 180 / 2 = v * (Real.pi / 720) := by ring
  show 0 <
    Real.sin ((lat + v - lat) * Real.pi / 180 / 2) *
        Real.sin ((lat + v - lat) * Real.pi / 180 / 2) +
      Real.cos (lat * Real.pi / 180) * Real.cos ((lat + v) * Real.pi / 180) *
        (Real.sin ((lon + v * 0.5 - lon) * Real.pi / 180 / 2) *
          Real.sin ((lon + v * 0.5 - lon) * Real.pi / 180 / 2))
  rw [e1, e2]
  have hu : 0 < |v| := abs_pos.mpr hv
  have hpi := Real.pi_pos
  have hsq1 : Real.sin (v * (Real.pi / 360)) * Real.sin (v * (Real.pi / 360)) =
      Real.sin (|v| * (Real.pi / 360)) * Real.sin (|v| * (Real.pi / 360)) := by
    rcases abs_cases v with ⟨h, _⟩ | ⟨h, _⟩
    · rw [h]
    · rw [h, show -v * (Real.pi / 360) = -(v * (Real.pi / 360)) by ring, Real.sin_neg]
      ring
  have hsq2 : Real.sin (v * (Real.pi / 720)) * Real.sin (v * (Real.pi / 720)) =
      Real.sin (|v| * (Real.pi / 720)) * Real.sin (|v| * (Real.pi / 720)) := by
    rcases abs_cases v with ⟨h, _⟩ | ⟨h, _⟩
    · rw [h]
    · rw [h, show -v * (Real.pi / 720) = -(v * (Real.pi / 720)) by ring, Real.sin_neg]
      ring
  rw [hsq1, hsq2]
  have ht : 0 < |v| * (Real.pi / 720) := by positivity
  have hts : |v| * (Real.pi / 720) < |v| * (Real.pi / 360) := by
    apply mul_lt_mul_of_pos_left _ hu
    nlinarith
  have hs_le : |v| * (Real.pi / 360) ≤ Real.pi / 2 := by nlinarith
  have h1 : 0 < Real.sin (|v| * (Real.pi / 720)) :=
    Real.sin_pos_of_pos_of_lt_pi ht (by nlinarith)
  have h2 : Real.sin (|v| * (Real.pi / 720)) < Real.sin (|v| * (Real.pi / 360)) := by
    apply Real.strictMonoOn_sin ⟨by nlinarith, by nlinarith⟩ ⟨by nlinarith, hs_le⟩ hts
  have hlt : Real.sin (|v| * (Real.pi / 720)) * Real.sin (|v| * (Real.pi / 720)) <
      Real.sin (|v| * (Real.pi / 360)) * Real.sin (|v| * (Real.pi / 360)) :=
    mul_self_lt_mul_self h1.le h2
  have hc1 := Real.neg_one_le_cos (lat * Real.pi / 180)
  have hc2 := Real.cos_le_one (lat * Real.pi / 180)
  have hc3 := Real.neg_one_le_cos ((lat + v) * Real.pi / 180)
  have hc4 := Real.cos_le_one ((lat + v) * Real.pi / 180)
  have hprod : -1 ≤ Real.cos (lat * Real.pi / 180) * Real.cos ((lat + v) * Real.pi / 180) := by
    nlinarith [mul_nonneg (by linarith : (0:ℝ) ≤ 1 + Real.cos (lat * Real.pi / 180))
        (by linarith : (0:ℝ) ≤ 1 + Real.cos ((lat + v) * Real.pi / 180)),
      mul_nonneg (by linarith : (0:ℝ) ≤ 1 - Real.cos (lat * Real.pi / 180))
        (by linarith : (0:ℝ) ≤ 1 - Real.cos ((lat + v) * Real.pi / 180))]
  have hS7 : 0 ≤ Real.sin (|v| * (Real.pi / 720)) * Real.sin (|v| * (Real.pi / 720)) :=
    mul_self_nonneg _
  have hkey := mul_le_mul_of_nonneg_right hprod hS7
  linarith

theorem calculateDistance_pos_of_shift (lat lon v : ℝ) (hv : v ≠ 0) (hb : |v| ≤ 180) :
    0 < calculateDistance (lat, lon) (lat + v, lon + v * 0.5) := by
  rw [calculateDistance_def]
  have ha := hav_a_pos_of_shift lat lon v hv hb
  have harg := atan2_pos (Real.sqrt (hav_a (lat, lon) (lat + v, lon + v * 0.5)))
    (Real.sqrt (1 - hav_a (lat, lon) (lat + v, lon + v * 0.5)))
    (Real.sqrt_pos.mpr ha)
  linarith

/-- C10: calling `createRoute` with origin equal to destination in the
simulated-route branch still delivers the 6-point path, every interior
waypoint differs from the common point (the sinusoidal perturbation is
non-zero at every interior index), and the reported distance is strictly
positive. -/
theorem claim_degenerate_pair_positive_distance (p : Coordinate) (fok : Bool) :
    createRoute p p true fok = some (simulatedRouteResult p p) ∧
    (simulatedRouteResult p p).coordinates.length = 6 ∧
    (simulatedRouteResult p p).coordinates.get? 1 ≠ some p ∧
    (simulatedRouteResult p p).coordinates.get? 2 ≠ some p ∧
    (simulatedRouteResult p p).coordinates.get? 3 ≠ some p ∧
    (simulatedRouteResult p p).coordinates.get? 4 ≠ some p ∧
    0 < (simulatedRouteResult p p).distance := by
  have hc : (simulatedRouteResult p p).coordinates =
      [p, wp p p 1, wp p p 2, wp p p 3, wp p p 4, p] := generateSimulatedRoute_eq p p
  have hwp : ∀ i : ℕ, 1 ≤ i → i ≤ 4 → wp p p i ≠ p := by
    intro i h1 h2 h
    have hfst := congrArg Prod.fst h
    have hfst' : p.1 + (p.1 - p.1) * ((i : ℝ) / 5) +
        0.001 * Real.sin (((i : ℝ) / 5) * Real.pi * 4) = p.1 := hfst
    have hs := sin_factor_ne_zero i h1 h2
    apply hs
    nlinarith [hfst']
  have hv1 : Real.sin ((((1 : ℕ) : ℝ) / 5) * Real.pi * 4) ≠ 0 :=
    sin_factor_ne_zero 1 (by norm_num) (by norm_num)
  have hvne : (0.001 : ℝ) * Real.sin ((((1 : ℕ) : ℝ) / 5) * Real.pi * 4) ≠ 0 :=
    mul_ne_zero (by norm_num) hv1
  have hvb : |(0.001 : ℝ) * Real.sin ((((1 : ℕ) : ℝ) / 5) * Real.pi * 4)| ≤ 180 := by
    have hs1 := Real.neg_one_le_sin ((((1 : ℕ) : ℝ) / 5) * Real.pi * 4)
    have hs2 := Real.sin_le_one ((((1 : ℕ) : ℝ) / 5) * Real.pi * 4)
    rw [abs_mul]
    rw [show |(0.001 : ℝ)| = 0.001 by rw [abs_of_pos]; norm_num]
    nlinarith [abs_le.mpr (And.intro hs1 hs2)]
  have hwp1 : wp p p 1 =
      (p.1 + 0.001 * Real.sin ((((1 : ℕ) : ℝ) / 5) * Real.pi * 4),
       p.2 + 0.001 * Real.sin ((((1 : ℕ) : ℝ) / 5) * Real.pi * 4) * 0.5) := by
    rw [wp]
    rw [Prod.mk.injEq]
    constructor <;> ring
  have hpos : 0 < calculateDistance p (wp p p 1) := by
    rw [show p = (p.1, p.2) from rfl, hwp1]
    exact calculateDistance_pos_of_shift p.1 p.2 _ hvne hvb
  refine ⟨rfl, by rw [hc]; rfl, ?_, ?_, ?_, ?_, ?_⟩
  · rw [hc]
    intro h
    exact hwp 1 (by norm_num) (by norm_num) (Option.some_injective _ h)
  · rw [hc]
    intro h
    exact hwp 2 (by norm_num) (by norm_num) (Option.some_injective _ h)
  · rw [hc]
    intro h
    exact hwp 3 (by norm_num) (by norm_num) (Option.some_injective _ h)
  · rw [hc]
    intro h
    exact hwp 4 (by norm_num) (by norm_num) (Option.some_injective _ h)
  · show 0 < calculateRouteDistance (generateSimulatedRoute p p)
    rw [generateSimulatedRoute_eq]
    show 0 < calculateDistance p (wp p p 1) +
      (calculateDistance (wp p p 1) (wp p p 2) +
        (calculateDistance (wp p p 2) (wp p p 3) +
          (calculateDistance (wp p p 3) (wp p p 4) +
            (calculateDistance (wp p p 4) p + 0))))
    have n1 := calculateDistance_nonneg (wp p p 1) (wp p p 2)
    have n2 := calculateDistance_nonneg (wp p p 2) (wp p p 3)
    have n3 := calculateDistance_nonneg (wp p p 3) (wp p p 4)
    have n4 := calculateDistance_nonneg (wp p p 4) p
    linarith

/-! ## LocationController: initial acquisition (App.js 91-191)

The callback-based `navigator.geolocation` flow inside
`startLocationWatch` is embedded in direct style.  The device capability
is a function from the option record passed to `getCurrentPosition` to
the response it delivers to exactly one of the two callbacks. -/

/-- The option record passed to `getCurrentPosition` / `watchPosition`. -/
structure GeoOptions where
  enableHighAccuracy : Bool
  timeout : ℕ
  maximumAge : ℕ
deriving DecidableEq

/-- `options` (App.js 102-106): stage-1 high-accuracy attempt — 15 s
timeout, no cached result reuse.  Also used for the watch. -/
def options : GeoOptions :=
  { enableHighAccuracy := true, timeout := 15000, maximumAge := 0 }

/-- `fallbackOptions` (App.js 129-133): stage-2 low-accuracy attempt —
30 s timeout, cached results up to 300000 ms (5 min) old permitted. -/
def fallbackOptions : GeoOptions :=
  { enableHighAccuracy := false, timeout := 30000, maximumAge := 300000 }

/-- A `position.coords` payload. -/
structure GeoPosition where
  latitude : ℝ
  longitude : ℝ
  accuracy : ℝ

/-- What one `getCurrentPosition` call delivers: the success callback with
a position, or the error callback with the error's `message` string
(permission denied, timeout and position-unavailable are not distinguished
by the code — every error takes the same path). -/
inductive GeoResponse where
  | success (position : GeoPosition)
  | failure (message : String)

/-- What the caller observes from the initial acquisition: `found` models
an `onLocationFound(coords, accuracy)` invocation, `error` an
`onLocationError(message)` invocation. -/
inductive LocationOutcome where
  | found (coords : Coordinate) (accuracy : ℝ)
  | error (message : String)

/-- The nested `getCurrentPosition` flow of App.js 108-159 — the operation
the specification calls `acquireInitial`.  Returns the delivered outcome
together with the trace of option records passed to `getCurrentPosition`,
in call order.  Stage 1 uses `options`; its error callback (App.js
126-157) performs exactly one further call with `fallbackOptions`, whose
own error callback reports `` `Location error: ${fallbackError.message}` ``.
(The success callbacks are additionally guarded by component-liveness
flags that do not affect which calls are made; see the watch model below
for those flags.) -/
def acquireInitial (geo : GeoOptions → GeoResponse) :
    LocationOutcome × List GeoOptions :=
  match geo options with
  | .success position =>
    (.found (position.latitude, position.longitude) position.accuracy, [options])
  | .failure _ =>
    match geo fallbackOptions with
    | .success position =>
      (.found (position.latitude, position.longitude) position.accuracy,
        [options, fallbackOptions])
    | .failure message =>
      (.error ("Location error: " ++ message), [options, fallbackOptions])

/-- C4: whenever the stage-1 high-accuracy call fails (any error kind),
the flow performs the stage-2 call exactly once, with low accuracy, a
30-second timeout and up to 5-minute-old cached results permitted, and
makes no further calls; if the fallback also fails, the outcome is a
terminal error carrying the underlying reason string. -/
theorem claim_fallback_exactly_once (geo : GeoOptions → GeoResponse) (r : String)
    (h1 : geo options = .failure r) :
    (acquireInitial geo).2 = [options, fallbackOptions] ∧
    (acquireInitial geo).2.count fallbackOptions = 1 ∧
    fallbackOptions =
      { enableHighAccuracy := false, timeout := 30000, maximumAge := 300000 } ∧
    (∀ m, geo fallbackOptions = .failure m →
      (acquireInitial geo).1 = .error ("Location error: " ++ m)) := by
  unfold acquireInitial
  rw [h1]
  refine ⟨?_, ?_, rfl, ?_⟩
  · cases hf : geo fallbackOptions <;> rfl
  · cases hf : geo fallbackOptions <;> rfl
  · intro m hm
    rw [hm]

/-- Witness for C4: a device that denies both attempts. -/
theorem claim_fallback_exactly_once_witness :
    (acquireInitial (fun _ => .failure "User denied Geolocation")).2.count
        fallbackOptions = 1 ∧
    (acquireInitial (fun _ => .failure "User denied Geolocation")).1 =
      .error ("Location error: " ++ "User denied Geolocation") := by
  have h := claim_fallback_exactly_once
    (fun _ => .failure "User denied Geolocation") "User denied Geolocation" rfl
  exact ⟨h.2.1, h.2.2.2 "User denied Geolocation" rfl⟩

/-! ## LocationController: watch lifecycle and teardown (C5)

The state of the tracking effect. `mounted` is the closure flag declared
at App.js 94; `watchActive` records whether the `watchPosition`
subscription (App.js 162-174) is registered and not yet cleared;
`mapReady` is `mapReadyRef.current`. -/

structure TrackerState where
  mounted : Bool
  mapReady : Bool
  watchActive : Bool
deriving DecidableEq

/-- The cleanup closure built at App.js 183-189 — the nearest thing the
code has to the specification's `stop()`: it sets `mounted = false`,
clears the start timer, and calls `clearWatch(watchId)` only if the
`watchId` it captured is non-null.  `watchIdAtCapture` says whether that
captured state value held an id; in the source it is the value from the
render in which the effect ran, which is still `null` when the closure is
created (the later `setWatchId(id)` does not update the captured
binding). -/
def innerCleanup (watchIdAtCapture : Bool) (s : TrackerState) : TrackerState :=
  { s with
    mounted := false,
    watchActive := if watchIdAtCapture then false else s.watchActive }

/-- What the effect actually registers as its React cleanup in the
map-already-ready branch (App.js 87-89): `startLocationTracking()` is
invoked as a bare statement and the cleanup closure it returns is
discarded, so nothing is registered and teardown leaves the state
unchanged.  (In the not-yet-ready branch only `clearInterval` of the
readiness poller is registered, App.js 86.) -/
def effectTeardown (s : TrackerState) : TrackerState := s

/-- Whether a position event delivered to the watch success callback
(App.js 163-169) reaches `onLocationFound` (the spec's `onUpdate`): the
callback returns early unless `mounted && mapReadyRef.current`. -/
def onUpdateFires (s : TrackerState) : Bool :=
  s.watchActive && s.mounted && s.mapReady

/-- Whether an error event delivered to the watch error callback
(App.js 170-172) performs its warning (the spec's `onWarn`): the callback
has no `mounted` / `mapReady` guard at all. -/
def onWarnFires (s : TrackerState) : Bool :=
  s.watchActive

/-- The state while the watch is live on a ready map. -/
def runningState : TrackerState :=
  { mounted := true, mapReady := true, watchActive := true }

/-- C5 (code bug): after teardown, callbacks still fire.  (a) The effect
discards the cleanup closure `startLocationTracking` returns, so React
teardown is a no-op and an in-flight position event still reaches
`onLocationFound`.  (b) Even running the inner cleanup directly (with the
`null` `watchId` it captured), the watch stays registered and an
in-flight error event still triggers the warning path, which is
unguarded. -/
theorem claim_stop_does_not_silence_callbacks :
    onUpdateFires (effectTeardown runningState) = true ∧
    (innerCleanup false runningState).watchActive = true ∧
    onWarnFires (innerCleanup false runningState) = true ∧
    onUpdateFires (innerCleanup false runningState) = false := by
  exact ⟨rfl, rfl, rfl, rfl⟩

end CvBox
